import Mathlib

/-!
Shallow embedding of the gemini-mcp-server authentication and configuration
core (src/gemini_mcp/auth.py, utils.py, config.py), with theorems checking
the specification's claims about it.

HTTP header values are decoded as latin-1 by the underlying HTTP stack, so
strings appearing in headers range over latin-1 characters; the Python
string helpers below are modelled accordingly.
-/

namespace GeminiMcp

/-- Latin-1 characters on which Python's `str.split()` (no argument) splits:
the characters `c` in the latin-1 range with `c.isspace()` true. -/
def pyIsSpace (c : Char) : Bool :=
  c = ' ' || c = '\t' || c = '\n' || c = '\r' || c = '\x0b' || c = '\x0c' ||
  c = '\x1c' || c = '\x1d' || c = '\x1e' || c = '\x1f' || c = '\x85' || c = '\xa0'

/-- Helper for `pySplit`: walks the character list, accumulating the current
(reversed) word; empty words are never emitted, matching Python's
`str.split()` with no argument. -/
def pySplitAux : List Char → List Char → List (List Char)
  | [], [] => []
  | [], cur => [cur.reverse]
  | c :: cs, cur =>
    if pyIsSpace c then
      if cur = [] then pySplitAux cs []
      else cur.reverse :: pySplitAux cs []
    else pySplitAux cs (c :: cur)

/-- Python `s.split()` with no argument: split on runs of whitespace,
discarding empty parts. -/
def pySplit (s : String) : List String :=
  (pySplitAux s.data []).map String.mk

/-- Lower-casing of a single character as Python's `str.lower()` acts on the
ASCII range. (No latin-1 letter outside this range lower-cases to any of the
letters of `"bearer"`, so this is adequate for the scheme comparison below.) -/
def pyCharLower (c : Char) : Char :=
  if 'A' ≤ c ∧ c ≤ 'Z' then Char.ofNat (c.toNat + 32) else c

/-- Python `s.lower()` on header text. -/
def pyLower (s : String) : String :=
  String.mk (s.data.map pyCharLower)

/-- Python `s.startswith(p)`. -/
def pyStartswith (s p : String) : Bool :=
  p.data.isPrefixOf s.data

/-- The truthiness test Python applies to an optional string:
`not x` is true exactly when `x` is `None` or the empty string. -/
def pyFalsy : Option String → Bool
  | none => true
  | some s => s = ""

/-! Section: auth.py, BearerTokenAuthMiddleware -/

/-- The parts of an inbound HTTP request that the middleware consults:
its URL path and its `Authorization` header (absent or present with a value). -/
structure HttpRequest where
  path : String
  authorization : Option String

/-- Outcome of `BearerTokenAuthMiddleware.dispatch`: either the request is
forwarded to the next handler (carrying the bearer token stored into
`request.state`, if any), or it is rejected with a status code and a
JSON `detail` message, never reaching a tool handler. -/
inductive AuthResult where
  | forwarded : Option String → AuthResult
  | rejected : Nat → String → AuthResult
deriving DecidableEq

/-- Model of `BearerTokenAuthMiddleware.dispatch` (auth.py, lines 10-42). -/
def dispatch (req : HttpRequest) : AuthResult :=
  if req.path = "/" then AuthResult.forwarded none
  else
    match req.authorization with
    | none => AuthResult.rejected 401 "Authorization header missing"
    | some auth_header =>
      if auth_header = "" then
        AuthResult.rejected 401 "Authorization header missing"
      else
        let parts := pySplit auth_header
        if parts.length ≠ 2 ∨ pyLower (parts.getD 0 "") ≠ "bearer" then
          AuthResult.rejected 401 "Invalid Authorization header. Must be 'Bearer <token>'"
        else if pyStartswith (parts.getD 1 "") "AI" = false then
          AuthResult.rejected 401 "Invalid token. Must be a AI Studio token"
        else
          AuthResult.forwarded (some (parts.getD 1 ""))

/-! Section: utils.py, get_gemini_client -/

/-- Model of `request.state` as consulted by `get_gemini_client`:
`getattr(request.state, "bearer_token", None)`. -/
structure RequestState where
  bearer_token : Option String

/-- The environment variables `get_gemini_client` reads.  An unset variable
is `none`; a variable set to the empty string is `some ""`. -/
structure UtilsEnv where
  mcp_transport_mode : Option String
  gemini_api_key : Option String

/-- The `google.genai` client handle, recorded by the API key it was
constructed with (`Client(api_key=api_key_to_use)`). -/
structure GeminiClient where
  api_key : String
deriving DecidableEq

/-- Model of `get_gemini_client` (utils.py, lines 64-119).  `http_request` is the
current HTTP request context: `none` models `get_http_request()` raising
`RuntimeError` (no active request), `some st` an active request whose state
is `st`.  `ValueError` messages are returned as `Except.error`. -/
def get_gemini_client (env : UtilsEnv) (http_request : Option RequestState) :
    Except String GeminiClient :=
  let transport_mode := env.mcp_transport_mode.getD "streamable-http"
  let keyStep : Except String String :=
    if transport_mode = "stdio" then
      match env.gemini_api_key with
      | none => Except.error "Authentication failed. GEMINI_API_KEY not found for stdio mode."
      | some k =>
        if k = "" then
          Except.error "Authentication failed. GEMINI_API_KEY not found for stdio mode."
        else Except.ok k
    else if transport_mode = "streamable-http" then
      match http_request with
      | none => Except.error "Tool must be called via an HTTP request for streamable-http mode."
      | some request_starlette =>
        match request_starlette.bearer_token with
        | none =>
          Except.error "Authentication failed in streamable-http mode. Bearer token not found."
        | some t =>
          if t = "" then
            Except.error "Authentication failed in streamable-http mode. Bearer token not found."
          else Except.ok t
    else Except.error ("Invalid MCP_TRANSPORT_MODE: " ++ transport_mode)
  match keyStep with
  | Except.error e => Except.error e
  | Except.ok api_key_to_use =>
    if api_key_to_use = "" then
      Except.error "Critical: API key for Gemini client is missing."
    else Except.ok { api_key := api_key_to_use }

/-! Section: config.py, ModelConfig, get_config, clear_config_cache -/

/-- Model of `ModelConfig` (config.py, lines 12-52): three model identifier fields. -/
structure ModelConfig where
  web_search_model : String
  default_model : String
  advanced_model : String
deriving DecidableEq

/-- The instance `ModelConfig()` built from the three field defaults.  (pydantic does not
re-run the field validators on defaulted fields, so this instance exists
unconditionally; its fields satisfy the prefix constraint anyway.) -/
def ModelConfig.defaults : ModelConfig :=
  { web_search_model := "gemini-flash-latest"
  , default_model := "gemini-flash-lite-latest"
  , advanced_model := "gemini-2.5-pro" }

/-- Model of `ModelConfig(web_search_model=w, default_model=d, advanced_model=a)` with
all three fields supplied explicitly, as `get_config` constructs it: each
field validator rejects a value not starting with `"gemini-"` and any
validator failure fails the whole construction. -/
def ModelConfig.construct (w d a : String) : Except String ModelConfig :=
  if pyStartswith w "gemini-" = false then
    Except.error ("Invalid model format: " ++ w ++ ". Must start with 'gemini-'")
  else if pyStartswith d "gemini-" = false then
    Except.error ("Invalid model format: " ++ d ++ ". Must start with 'gemini-'")
  else if pyStartswith a "gemini-" = false then
    Except.error ("Invalid model format: " ++ a ++ ". Must start with 'gemini-'")
  else Except.ok { web_search_model := w, default_model := d, advanced_model := a }

/-- The three environment variables `get_config` reads
(`GEMINI_WEB_SEARCH_MODEL`, `GEMINI_DEFAULT_MODEL`, `GEMINI_ADVANCED_MODEL`). -/
structure ConfigEnv where
  gemini_web_search_model : Option String
  gemini_default_model : Option String
  gemini_advanced_model : Option String

/-- Model of `_get_env_with_default` (config.py, lines 82-87): `os.getenv(var, default)`. -/
def get_env_with_default (value : Option String) (dflt : String) : String :=
  value.getD dflt

/-- The value `get_config` computes on a cache miss (config.py, lines 55-74):
construct a `ModelConfig` from the three environment variables with their
defaults, falling back to the all-defaults instance if construction fails. -/
def get_config_value (e : ConfigEnv) : ModelConfig :=
  match ModelConfig.construct
      (get_env_with_default e.gemini_web_search_model "gemini-flash-latest")
      (get_env_with_default e.gemini_default_model "gemini-flash-lite-latest")
      (get_env_with_default e.gemini_advanced_model "gemini-2.5-pro") with
  | Except.ok config => config
  | Except.error _ => ModelConfig.defaults

/-- Model of `get_config` with its `lru_cache(maxsize=1)` made explicit: the cache slot
is threaded as state; a hit returns the cached instance, a miss computes and
stores `get_config_value`. -/
def get_config (cache : Option ModelConfig) (e : ConfigEnv) :
    ModelConfig × Option ModelConfig :=
  match cache with
  | some c => (c, some c)
  | none => (get_config_value e, some (get_config_value e))

/-- Model of `clear_config_cache` (config.py, lines 77-79): empties the cache slot. -/
def clear_config_cache (_cache : Option ModelConfig) : Option ModelConfig :=
  none

/-! Section: helper lemmas -/

/-- Splitting the empty header value yields no parts. -/
lemma pySplit_empty : pySplit "" = [] := rfl

/-- The empty string does not start with `"AI"`. -/
lemma pyStartswith_empty_AI : pyStartswith "" "AI" = false := rfl

/-- Appending strings acts as list append on the underlying character data. -/
lemma string_data_append : ∀ s m : String, (s ++ m).data = s.data ++ m.data
  | ⟨_⟩, ⟨_⟩ => rfl

/-- A string whose first character is not `'I'` is not of the form
`"Invalid MCP_TRANSPORT_MODE: " ++ m`. -/
lemma ne_invalid_mode_msg (s : String) (hs : s.data.head? ≠ some 'I') (m : String) :
    s ≠ "Invalid MCP_TRANSPORT_MODE: " ++ m := by
  intro h
  apply hs
  rw [h, string_data_append]
  have hdata : ("Invalid MCP_TRANSPORT_MODE: " : String).data =
      'I' :: ("nvalid MCP_TRANSPORT_MODE: " : String).data := rfl
  rw [hdata]
  rfl

/-- A successful `ModelConfig.construct w d a` implies all three inputs pass
the prefix check and the result's fields are exactly the inputs. -/
lemma construct_ok_prefixes {w d a : String} {c : ModelConfig}
    (h : ModelConfig.construct w d a = Except.ok c) :
    pyStartswith w "gemini-" = true ∧ pyStartswith d "gemini-" = true ∧
      pyStartswith a "gemini-" = true ∧ c = ModelConfig.mk w d a := by
  unfold ModelConfig.construct at h
  by_cases hw : pyStartswith w "gemini-" = false
  · rw [if_pos hw] at h
    exact absurd h (by simp)
  · rw [if_neg hw] at h
    by_cases hd : pyStartswith d "gemini-" = false
    · rw [if_pos hd] at h
      exact absurd h (by simp)
    · rw [if_neg hd] at h
      by_cases ha : pyStartswith a "gemini-" = false
      · rw [if_pos ha] at h
        exact absurd h (by simp)
      · rw [if_neg ha] at h
        have hc : ModelConfig.mk w d a = c := by
          injection h
        exact ⟨by simpa using hw, by simpa using hd, by simpa using ha, hc.symm⟩

/-! Section: theorems about the claims -/

/-- Claim C2: a request to a non-root path with no `Authorization` header is
rejected with status 401 and detail `"Authorization header missing"`, and is
never forwarded to the next handler. -/
theorem auth_missing_header_rejected (req : HttpRequest)
    (hpath : req.path ≠ "/") (hauth : req.authorization = none) :
    dispatch req = AuthResult.rejected 401 "Authorization header missing" ∧
    ∀ t : Option String, dispatch req ≠ AuthResult.forwarded t := by
  have hd : dispatch req = AuthResult.rejected 401 "Authorization header missing" := by
    unfold dispatch
    rw [if_neg hpath, hauth]
  refine ⟨hd, ?_⟩
  intro t hcontra
  rw [hd] at hcontra
  exact AuthResult.noConfusion hcontra

/-- Witness for C2 at a concrete request. -/
theorem auth_missing_header_rejected_witness :
    dispatch { path := "/mcp", authorization := none } =
      AuthResult.rejected 401 "Authorization header missing" :=
  (auth_missing_header_rejected { path := "/mcp", authorization := none }
    (by decide) rfl).1

/-- Claim C1 counterexample: for the header `Bearer abc123` on a non-root
path, the middleware does NOT store `abc123` and forward; it performs a
further format check on the token (`startswith("AI")`) and rejects with 401
`"Invalid token. Must be a AI Studio token"`. -/
theorem auth_verbatim_token_counterexample :
    dispatch { path := "/mcp", authorization := some "Bearer abc123" } =
      AuthResult.rejected 401 "Invalid token. Must be a AI Studio token" ∧
    dispatch { path := "/mcp", authorization := some "Bearer abc123" } ≠
      AuthResult.forwarded (some "abc123") := by
  constructor
  · decide
  · decide

/-- Claim C1 (amended): for a request to a non-root path whose
`Authorization` header splits into exactly two whitespace-separated parts,
the first case-insensitively `bearer` and the second starting with `"AI"`,
the middleware stores the second part verbatim and forwards the request;
tokens not of that shape are rejected before storage. -/
theorem auth_valid_token_forwarded (req : HttpRequest) (h p0 p1 : String)
    (hpath : req.path ≠ "/") (hauth : req.authorization = some h)
    (hsplit : pySplit h = [p0, p1]) (hscheme : pyLower p0 = "bearer")
    (htok : pyStartswith p1 "AI" = true) :
    dispatch req = AuthResult.forwarded (some p1) := by
  have hne : h ≠ "" := by
    intro he
    rw [he, pySplit_empty] at hsplit
    exact List.noConfusion hsplit
  simp [dispatch, hpath, hauth, hne, hsplit, hscheme, htok]

/-- Witness for C1 (amended) at the concrete header `Bearer AIabc`. -/
theorem auth_valid_token_forwarded_witness :
    dispatch { path := "/mcp", authorization := some "Bearer AIabc" } =
      AuthResult.forwarded (some "AIabc") :=
  auth_valid_token_forwarded { path := "/mcp", authorization := some "Bearer AIabc" }
    "Bearer AIabc" "Bearer" "AIabc" (by decide) rfl (by decide) (by decide) (by decide)

/-- Claim C3 counterexample: an `Authorization` header that is present but
empty splits into zero parts (not two), yet the middleware answers with the
`"Authorization header missing"` detail, not the malformed-header detail
the claim requires. -/
theorem auth_malformed_header_counterexample :
    (pySplit "").length ≠ 2 ∧
    dispatch { path := "/mcp", authorization := some "" } =
      AuthResult.rejected 401 "Authorization header missing" ∧
    dispatch { path := "/mcp", authorization := some "" } ≠
      AuthResult.rejected 401 "Invalid Authorization header. Must be 'Bearer <token>'" := by
  refine ⟨by decide, by decide, by decide⟩

/-- Claim C3 (amended): for a request to a non-root path whose
`Authorization` header is present and non-empty, if splitting it on
whitespace does not yield exactly two parts, or the first part lowercased is
not `"bearer"`, the middleware rejects with 401 and detail
`"Invalid Authorization header. Must be 'Bearer <token>'"`. -/
theorem auth_malformed_header_rejected (req : HttpRequest) (h : String)
    (hpath : req.path ≠ "/") (hauth : req.authorization = some h) (hne : h ≠ "")
    (hbad : (pySplit h).length ≠ 2 ∨ pyLower ((pySplit h).getD 0 "") ≠ "bearer") :
    dispatch req =
      AuthResult.rejected 401 "Invalid Authorization header. Must be 'Bearer <token>'" := by
  simp only [dispatch, hauth]
  rw [if_neg hpath, if_neg hne]
  exact if_pos hbad

/-- Witness for C3 (amended) at the concrete header `Basic abc`. -/
theorem auth_malformed_header_rejected_witness :
    dispatch { path := "/mcp", authorization := some "Basic abc" } =
      AuthResult.rejected 401 "Invalid Authorization header. Must be 'Bearer <token>'" :=
  auth_malformed_header_rejected { path := "/mcp", authorization := some "Basic abc" }
    "Basic abc" (by decide) rfl (by decide) (by decide)

/-- Claim C4: in streamable-http mode, `get_gemini_client` invoked with no
active HTTP request context raises
`"Tool must be called via an HTTP request for streamable-http mode."`, while
a context lacking a stashed bearer token raises the distinct message
`"Authentication failed in streamable-http mode. Bearer token not found."`. -/
theorem http_mode_errors (env : UtilsEnv)
    (hmode : env.mcp_transport_mode.getD "streamable-http" = "streamable-http") :
    (get_gemini_client env none =
      Except.error "Tool must be called via an HTTP request for streamable-http mode.") ∧
    (∀ st : RequestState, pyFalsy st.bearer_token = true →
      get_gemini_client env (some st) =
        Except.error "Authentication failed in streamable-http mode. Bearer token not found.") ∧
    ("Tool must be called via an HTTP request for streamable-http mode." ≠
      ("Authentication failed in streamable-http mode. Bearer token not found." : String)) := by
  refine ⟨?_, ?_, by decide⟩
  · simp [get_gemini_client, hmode]
  · intro st hst
    obtain ⟨bt⟩ := st
    cases bt with
    | none => simp [get_gemini_client, hmode]
    | some t =>
      have ht : t = "" := by simpa [pyFalsy] using hst
      subst ht
      simp [get_gemini_client, hmode]

/-- Witness for C4: both failure messages at concrete inputs. -/
theorem http_mode_errors_witness :
    get_gemini_client ⟨none, none⟩ none =
      Except.error "Tool must be called via an HTTP request for streamable-http mode." ∧
    get_gemini_client ⟨none, none⟩ (some ⟨none⟩) =
      Except.error "Authentication failed in streamable-http mode. Bearer token not found." :=
  ⟨(http_mode_errors ⟨none, none⟩ rfl).1,
   (http_mode_errors ⟨none, none⟩ rfl).2.1 ⟨none⟩ rfl⟩

/-- Claim C5: in stdio mode, an unset or empty `GEMINI_API_KEY` fails
credential resolution with an authentication error, and `GEMINI_API_KEY`
set to `"XYZ"` yields a client bound to exactly `"XYZ"`. -/
theorem stdio_mode_credential (env : UtilsEnv) (ctx : Option RequestState)
    (hmode : env.mcp_transport_mode = some "stdio") :
    ((env.gemini_api_key = none ∨ env.gemini_api_key = some "") →
      get_gemini_client env ctx =
        Except.error "Authentication failed. GEMINI_API_KEY not found for stdio mode.") ∧
    (env.gemini_api_key = some "XYZ" →
      get_gemini_client env ctx = Except.ok { api_key := "XYZ" }) := by
  constructor
  · rintro (hk | hk) <;> simp [get_gemini_client, hmode, hk]
  · intro hk
    simp [get_gemini_client, hmode, hk]

/-- Witness for C5: unset key fails, key `"XYZ"` succeeds bound to `"XYZ"`. -/
theorem stdio_mode_credential_witness :
    get_gemini_client ⟨some "stdio", none⟩ none =
      Except.error "Authentication failed. GEMINI_API_KEY not found for stdio mode." ∧
    get_gemini_client ⟨some "stdio", some "XYZ"⟩ none = Except.ok { api_key := "XYZ" } :=
  ⟨(stdio_mode_credential ⟨some "stdio", none⟩ none rfl).1 (Or.inl rfl),
   (stdio_mode_credential ⟨some "stdio", some "XYZ"⟩ none rfl).2 rfl⟩

/-- Claim C6: if any of the three model environment variables supplies a
value not starting with `"gemini-"`, `get_config` falls back to the
ModelConfig built entirely from the three defaults — never a mixed
instance. -/
theorem config_all_or_nothing (e : ConfigEnv)
    (hbad : (∃ v, e.gemini_web_search_model = some v ∧ pyStartswith v "gemini-" = false) ∨
            (∃ v, e.gemini_default_model = some v ∧ pyStartswith v "gemini-" = false) ∨
            (∃ v, e.gemini_advanced_model = some v ∧ pyStartswith v "gemini-" = false)) :
    get_config_value e = ModelConfig.defaults := by
  unfold get_config_value
  cases hc : ModelConfig.construct
      (get_env_with_default e.gemini_web_search_model "gemini-flash-latest")
      (get_env_with_default e.gemini_default_model "gemini-flash-lite-latest")
      (get_env_with_default e.gemini_advanced_model "gemini-2.5-pro") with
  | error msg => rfl
  | ok c =>
    exfalso
    obtain ⟨hw, hd, ha, -⟩ := construct_ok_prefixes hc
    rcases hbad with ⟨v, hv, hb⟩ | ⟨v, hv, hb⟩ | ⟨v, hv, hb⟩
    · rw [hv] at hw
      simp only [get_env_with_default, Option.getD_some] at hw
      exact Bool.noConfusion (hw.symm.trans hb)
    · rw [hv] at hd
      simp only [get_env_with_default, Option.getD_some] at hd
      exact Bool.noConfusion (hd.symm.trans hb)
    · rw [hv] at ha
      simp only [get_env_with_default, Option.getD_some] at ha
      exact Bool.noConfusion (ha.symm.trans hb)

/-- Witness for C6: an invalid web-search override (`gpt-4`) with a valid
default-model override (`gemini-flash`) still yields the all-defaults config,
discarding the valid override too. -/
theorem config_all_or_nothing_witness :
    get_config_value ⟨some "gpt-4", some "gemini-flash", none⟩ = ModelConfig.defaults :=
  config_all_or_nothing ⟨some "gpt-4", some "gemini-flash", none⟩
    (Or.inl ⟨"gpt-4", rfl, by decide⟩)

/-- Claim C7: every ModelConfig that exists — whether built by validated
construction or as the all-defaults instance — satisfies the `"gemini-"`
prefix constraint on all three fields; construction is atomic, so a
violating instance is never produced. -/
theorem model_config_invariant :
    (∀ w d a c, ModelConfig.construct w d a = Except.ok c →
      pyStartswith c.web_search_model "gemini-" = true ∧
      pyStartswith c.default_model "gemini-" = true ∧
      pyStartswith c.advanced_model "gemini-" = true) ∧
    (pyStartswith ModelConfig.defaults.web_search_model "gemini-" = true ∧
     pyStartswith ModelConfig.defaults.default_model "gemini-" = true ∧
     pyStartswith ModelConfig.defaults.advanced_model "gemini-" = true) := by
  refine ⟨?_, by decide, by decide, by decide⟩
  intro w d a c h
  obtain ⟨hw, hd, ha, hc⟩ := construct_ok_prefixes h
  subst hc
  exact ⟨hw, hd, ha⟩

/-- Witness for C7 at a concrete successful construction. -/
theorem model_config_invariant_witness :
    pyStartswith (ModelConfig.mk "gemini-1" "gemini-2" "gemini-3").web_search_model
      "gemini-" = true ∧
    pyStartswith (ModelConfig.mk "gemini-1" "gemini-2" "gemini-3").default_model
      "gemini-" = true ∧
    pyStartswith (ModelConfig.mk "gemini-1" "gemini-2" "gemini-3").advanced_model
      "gemini-" = true :=
  model_config_invariant.1 "gemini-1" "gemini-2" "gemini-3"
    (ModelConfig.mk "gemini-1" "gemini-2" "gemini-3") rfl

/-- Claim C8: for a fixed environment, resolving the config, clearing the
cache, and resolving again yields a ModelConfig equal in all three fields to
the pre-clear instance. -/
theorem config_cache_roundtrip (e : ConfigEnv) :
    ((get_config (clear_config_cache (get_config none e).2) e).1).web_search_model =
      ((get_config none e).1).web_search_model ∧
    ((get_config (clear_config_cache (get_config none e).2) e).1).default_model =
      ((get_config none e).1).default_model ∧
    ((get_config (clear_config_cache (get_config none e).2) e).1).advanced_model =
      ((get_config none e).1).advanced_model :=
  ⟨rfl, rfl, rfl⟩

/-- Witness for C8 at a concrete environment. -/
theorem config_cache_roundtrip_witness :
    ((get_config (clear_config_cache (get_config none ⟨none, none, none⟩).2)
        ⟨none, none, none⟩).1).web_search_model =
      ((get_config none ⟨none, none, none⟩).1).web_search_model ∧
    ((get_config (clear_config_cache (get_config none ⟨none, none, none⟩).2)
        ⟨none, none, none⟩).1).default_model =
      ((get_config none ⟨none, none, none⟩).1).default_model ∧
    ((get_config (clear_config_cache (get_config none ⟨none, none, none⟩).2)
        ⟨none, none, none⟩).1).advanced_model =
      ((get_config none ⟨none, none, none⟩).1).advanced_model :=
  config_cache_roundtrip ⟨none, none, none⟩

/-- Claim C9: every bearer token the middleware stores and forwards is a
non-empty string starting with `"AI"`, and for such a token the
`"Bearer token not found"` branch of `get_gemini_client` in streamable-http
mode is unreachable: resolution succeeds with a client bound to the token. -/
theorem gate_token_invariant (req : HttpRequest) (t : String)
    (h : dispatch req = AuthResult.forwarded (some t)) :
    pyStartswith t "AI" = true ∧ t ≠ "" ∧
    ∀ env : UtilsEnv, env.mcp_transport_mode.getD "streamable-http" = "streamable-http" →
      get_gemini_client env (some { bearer_token := some t }) =
        Except.ok { api_key := t } := by
  have hAI : pyStartswith t "AI" = true := by
    unfold dispatch at h
    split at h
    · simp at h
    · split at h
      · simp at h
      · split at h
        · simp at h
        · dsimp only [] at h
          split at h
          · simp at h
          · split at h
            · simp at h
            next hts =>
              simp only [AuthResult.forwarded.injEq, Option.some.injEq] at h
              rw [← h]
              simpa using hts
  have hne : t ≠ "" := by
    intro ht
    rw [ht, pyStartswith_empty_AI] at hAI
    exact Bool.noConfusion hAI
  refine ⟨hAI, hne, ?_⟩
  intro env hmode
  simp [get_gemini_client, hmode, hne]

/-- Witness for C9: the token stored for `Bearer AIkey` resolves to a client
bound to `AIkey` in streamable-http mode. -/
theorem gate_token_invariant_witness :
    get_gemini_client ⟨none, none⟩ (some { bearer_token := some "AIkey" }) =
      Except.ok { api_key := "AIkey" } :=
  (gate_token_invariant { path := "/mcp", authorization := some "Bearer AIkey" }
    "AIkey" (by decide)).2.2 ⟨none, none⟩ rfl

/-- Claim C10: with `MCP_TRANSPORT_MODE` unset, `get_gemini_client` behaves
exactly as with the variable set to `"streamable-http"`, and the
`"Invalid MCP_TRANSPORT_MODE"` error arises only when the variable is set to
a value other than `"stdio"` and `"streamable-http"` — never when unset. -/
theorem transport_mode_default (env : UtilsEnv) (ctx : Option RequestState) :
    (env.mcp_transport_mode = none →
      get_gemini_client env ctx =
        get_gemini_client { env with mcp_transport_mode := some "streamable-http" } ctx) ∧
    (∀ v, env.mcp_transport_mode = some v → v ≠ "stdio" → v ≠ "streamable-http" →
      get_gemini_client env ctx = Except.error ("Invalid MCP_TRANSPORT_MODE: " ++ v)) ∧
    (env.mcp_transport_mode = none →
      ∀ m : String,
        get_gemini_client env ctx ≠ Except.error ("Invalid MCP_TRANSPORT_MODE: " ++ m)) := by
  refine ⟨?_, ?_, ?_⟩
  · intro hm
    simp [get_gemini_client, hm]
  · intro v hv hv1 hv2
    simp [get_gemini_client, hv, hv1, hv2]
  · intro hm m
    cases ctx with
    | none =>
      simp only [get_gemini_client, hm]
      simp only [Option.getD_none]
      simp
      exact ne_invalid_mode_msg _ (by decide) m
    | some st =>
      cases hbt : st.bearer_token with
      | none =>
        simp only [get_gemini_client, hm, hbt]
        simp only [Option.getD_none]
        simp
        exact ne_invalid_mode_msg _ (by decide) m
      | some t =>
        by_cases ht : t = ""
        · simp only [get_gemini_client, hm, hbt, ht]
          simp only [Option.getD_none]
          simp
          exact ne_invalid_mode_msg _ (by decide) m
        · simp [get_gemini_client, hm, hbt, ht]

/-- Witness for C10: unset mode equals explicit streamable-http mode, and a
bogus mode value produces the invalid-mode error. -/
theorem transport_mode_default_witness :
    get_gemini_client ⟨none, none⟩ none =
      get_gemini_client ⟨some "streamable-http", none⟩ none ∧
    get_gemini_client ⟨some "bogus", none⟩ none =
      Except.error ("Invalid MCP_TRANSPORT_MODE: " ++ "bogus") ∧
    get_gemini_client ⟨none, none⟩ none ≠
      Except.error ("Invalid MCP_TRANSPORT_MODE: " ++ "anything") :=
  ⟨(transport_mode_default ⟨none, none⟩ none).1 rfl,
   (transport_mode_default ⟨some "bogus", none⟩ none).2.1 "bogus" rfl
     (by decide) (by decide),
   (transport_mode_default ⟨none, none⟩ none).2.2 rfl "anything"⟩

end GeminiMcp
